import Mathlib

/-!
Verification of the dialogue/question-answering core of the
`ai_voice_support_bot` repository, as a shallow embedding in Lean 4.

The embedding translates, directly from the Python source:

* `src/ai/llm_client.py`: `query_llm` (the backend is modelled as a
  function returning `Except String String`; an exception from the Azure
  client corresponds to `Except.error`).
* `src/ai/ai_helpers.py`: `clean_llm_response`, `determine_sentiment`,
  `validate_option`, `generate_smart_clarification`, `is_followup_question`.
  Each helper performs exactly one LLM call; the embedding additionally
  returns a trace of tags (`AICall`) recording which helper was invoked
  with which arguments, so that properties about the number and kind of
  semantic-collaborator calls can be stated.
* `src/dialogue_utils.py`: `ask_question` (the per-question loop; the
  sequence of recognized caller inputs is passed as a list, and running
  out of inputs yields `TurnResult.noFuel`; TTS/AGI playback is modelled
  by recording the spoken utterances in order).
* `fastagi_server.py`: the question loop of `agi_main_flow_custom`
  (`agi_flow_loop`), and the inline exit-keyword check of
  `agi_main.py:agi_main_flow` (`exitIntent`).
* `dialogue_manager.py`: `DialogueManager.__init__` (`mkDialogueManager`)
  and `DialogueManager.process_input` (`process_input`).

Python string operations used by the source (`str.lower`, `str.strip`,
`str.replace`, the `in` substring test and list membership) are modelled
on `List Char` (`pyLower`, `pyStrip`, `pyReplace`, `strContains`); all
strings involved are ASCII, where `Char.toLower` agrees with Python.
-/

namespace VoiceBot

/-- Python `str.isspace` characters relevant here (all inputs are ASCII). -/
def pyWS (c : Char) : Bool :=
  c == ' ' || c == '\t' || c == '\n' || c == '\r'

/-- Python `str.strip()` on a character list. -/
def pyStripList (l : List Char) : List Char :=
  (((l.dropWhile pyWS).reverse).dropWhile pyWS).reverse

/-- Python `str.strip()`. -/
def pyStrip (s : String) : String :=
  ⟨pyStripList s.data⟩

/-- Python `str.lower()` (ASCII). -/
def pyLower (s : String) : String :=
  ⟨s.data.map Char.toLower⟩

/-- Does `l` start with `pat`? (Python prefix test, used to build the
substring test.) -/
def startsWithList : List Char → List Char → Bool
  | [], _ => true
  | _ :: _, [] => false
  | p :: ps, c :: cs => p == c && startsWithList ps cs

/-- Does `pat` occur as a contiguous run inside `hay`?  (Python `in`.) -/
def containsList (pat : List Char) : List Char → Bool
  | [] => pat.isEmpty
  | c :: cs => startsWithList pat (c :: cs) || containsList pat cs

/-- Python `pat in hay` substring test on strings. -/
def strContains (hay pat : String) : Bool :=
  containsList pat.data hay.data

/-- Leftmost non-overlapping replacement, fuelled by the input length
(Python `str.replace` for a non-empty pattern). -/
def replaceAux (pat rep : List Char) : Nat → List Char → List Char
  | _, [] => []
  | 0, l => l
  | n + 1, c :: cs =>
    if startsWithList pat (c :: cs) then
      rep ++ replaceAux pat rep n (List.drop pat.length (c :: cs))
    else
      c :: replaceAux pat rep n cs

/-- Python `hay.replace(pat, rep)` for the non-empty fixed patterns used
by the source. -/
def pyReplace (s pat rep : String) : String :=
  ⟨replaceAux pat.data rep.data s.data.length s.data⟩

/-- A chat message, as the dicts with `role`/`content` keys used by the
source. -/
structure Msg where
  role : String
  content : String
deriving DecidableEq

/-- Tag recording one invocation of an AI helper function (each helper in
`src/ai/ai_helpers.py` performs exactly one `query_llm` call). -/
inductive AICall where
  | sentiment (response : String)
  | validate (response : String) (valid_options : List String)
  | followup (response : String) (valid_options : List String)
  | smartClarify (primary : String) (candidate_followup : String) (valid_options : List String)
deriving DecidableEq

/-- The fixed string returned by `query_llm` when the backend raises
(`src/ai/llm_client.py` line 40). -/
def apologyMsg : String :=
  "Sorry, I encountered an issue processing your request."

/-- `src/ai/llm_client.py:query_llm`.  The Azure client is modelled as
`backend`; `Except.error` models an exception raised by
`client.complete` (caught by the `try`/`except`, which returns the fixed
apology string).  Assistant messages are dropped from the history, as in
the source. -/
def query_llm (backend : List Msg → Except String String) (conversation_history : List Msg) : String :=
  let messages := conversation_history.filterMap (fun m =>
    if m.role == "system" then some m
    else if m.role == "user" then some m
    else none)
  match backend messages with
  | Except.ok s => s
  | Except.error _ => apologyMsg

/-- `src/ai/ai_helpers.py:clean_llm_response`: strip the three chat
framing tokens, then `strip()`. -/
def clean_llm_response (response : String) : String :=
  pyStrip
    (pyReplace
      (pyReplace
        (pyReplace response "<|im_start|>user<|im_sep|>" "")
        "<|im_start|>assistant<|im_sep|>" "")
      "<|im_end|>" "")

/-- The prompt built by `determine_sentiment`. -/
def sentimentPrompt (response : String) : String :=
  "Determine whether the following response is positive or negative: \"" ++ response ++
    "\". Respond with only 'positive' or 'negative'."

/-- `src/ai/ai_helpers.py:determine_sentiment`.  `llm` is the
`query_llm` collaborator; the second component is the call trace. -/
def determine_sentiment (llm : List Msg → String) (response : String) : String × List AICall :=
  let conversation := [Msg.mk "system" (sentimentPrompt response)]
  let raw_result := llm conversation
  let result := pyLower (clean_llm_response raw_result)
  ((if strContains result "negative" then "negative" else "positive"),
    [AICall.sentiment response])

/-- The prompt built by `validate_option`. -/
def validatePrompt (response : String) (valid_options : List String) : String :=
  "Candidate's response: \"" ++ response ++ "\".\n" ++
    "Valid options: " ++ String.intercalate ", " valid_options ++ ".\n" ++
    "Check if the candidate's response clearly includes one of these options. " ++
    "If yes, respond with the matching option exactly as given (one word). " ++
    "If the response is ambiguous or does not clearly include any of these options, respond with 'none'. " ++
    "Respond with only one word."

/-- `src/ai/ai_helpers.py:validate_option`: clean, `strip()`, `lower()`
the LLM reply and accept it only when it is literally an element of
`valid_options`. -/
def validate_option (llm : List Msg → String) (response : String) (valid_options : List String) :
    Option String × List AICall :=
  let conversation := [Msg.mk "system" (validatePrompt response valid_options)]
  let raw_result := llm conversation
  let result := pyLower (pyStrip (clean_llm_response raw_result))
  ((if valid_options.contains result then some result else none),
    [AICall.validate response valid_options])

/-- The prompt built by `generate_smart_clarification`. -/
def smartClarifyPrompt (primary_question candidate_followup : String) (valid_options : List String) : String :=
  "The candidate asked: \"" ++ candidate_followup ++ "\". The primary question is: \"" ++
    primary_question ++ "\". " ++
    "Provide a smart, friendly response that acknowledges their follow-up and instructs them to answer the main question by choosing one of the following options: " ++
    String.intercalate ", " valid_options ++ ". " ++
    "Do not repeat the entire primary question verbatim; just provide a concise clarification and directive. " ++
    "Do not use any emojis, and keep your answer small and concise."

/-- `src/ai/ai_helpers.py:generate_smart_clarification`. -/
def generate_smart_clarification (llm : List Msg → String)
    (primary_question candidate_followup : String) (valid_options : List String) :
    String × List AICall :=
  let conversation := [Msg.mk "system" (smartClarifyPrompt primary_question candidate_followup valid_options)]
  (clean_llm_response (llm conversation),
    [AICall.smartClarify primary_question candidate_followup valid_options])

/-- The prompt built by `is_followup_question`. -/
def followupPrompt (response : String) (valid_options : List String) : String :=
  "Candidate's response: \"" ++ response ++ "\".\n" ++
    "Determine if this response is a follow-up clarification question (i.e., the candidate is asking for more details) " ++
    "rather than directly answering the primary question. If the response includes any of these valid options: " ++
    String.intercalate ", " valid_options ++ ", " ++
    "or if it clearly answers the question, then respond with 'no'. Otherwise, if it seems like they are asking for clarification, respond with 'yes'. " ++
    "Respond with only 'yes' or 'no'."

/-- `src/ai/ai_helpers.py:is_followup_question`: true iff the cleaned,
stripped, lower-cased LLM reply is exactly `"yes"`. -/
def is_followup_question (llm : List Msg → String) (response : String) (valid_options : List String) :
    Bool × List AICall :=
  let conversation := [Msg.mk "system" (followupPrompt response valid_options)]
  let raw_result := llm conversation
  let result := pyLower (pyStrip (clean_llm_response raw_result))
  ((result == "yes"), [AICall.followup response valid_options])

/-- One question dict of the scripts in `fastagi_server.py` /
`dialogue_manager.py` (keys `key`, `question`, `valid_options`, and the
optional `exit_if`, `exit_message`, `condition`). -/
structure Question where
  key : String
  question : String
  valid_options : List String
  exit_if : Option String
  exit_message : Option String
  condition : Option (List (String × String) → Bool)

/-- Result of one `ask_question` turn: `answered a` models `return a`,
`ended f` models speaking farewell `f`, hanging up and returning `None`,
and `noFuel` means the supplied list of caller inputs was exhausted
(the source loop would keep prompting). -/
inductive TurnResult where
  | answered (answer : String)
  | ended (farewell : String)
  | noFuel
deriving DecidableEq

/-- The no-input farewell of `ask_question`. -/
def noInputGoodbye : String := "No input received. Ending session. Goodbye!"

/-- The default farewell used when a question has no `exit_message`. -/
def defaultExitMessage : String := "Thank you for your time. Goodbye!"

/-- Everything observable about one `ask_question` run: its result, the
utterances spoken (prompts and farewells, in order), the AI-helper call
trace, and the caller inputs left unconsumed. -/
structure AskOutcome where
  result : TurnResult
  spoken : List String
  calls : List AICall
  rest : List String
deriving DecidableEq

/-- The `while True` loop of `src/dialogue_utils.py:ask_question`
(`fastagi_server.py:ask_question` is the same loop).  State:
`clarification_mode` and `smart_prompt`; each iteration consumes one
recognized caller input (already the result of STT; the source then
applies `.strip().lower()`).  In clarification mode the follow-up check
is skipped by Python short-circuiting, so no `is_followup_question`
call (and hence no LLM call) happens. -/
def ask_question_loop (llm : List Msg → String) (q : Question)
    (valid_options : List String) (primary_prompt : String) :
    Bool → String → List String → AskOutcome
  | _, _, [] => ⟨TurnResult.noFuel, [], [], []⟩
  | clarification_mode, smart_prompt, raw :: rest =>
    let current_prompt := if clarification_mode then smart_prompt else primary_prompt
    let response := pyLower (pyStrip raw)
    if response == "" then
      ⟨TurnResult.ended noInputGoodbye, [current_prompt, noInputGoodbye], [], rest⟩
    else if valid_options == ["yes", "no"] then
      let s := determine_sentiment llm response
      if s.1 == "negative" then
        let goodbye := q.exit_message.getD defaultExitMessage
        ⟨TurnResult.ended goodbye, [current_prompt, goodbye], s.2, rest⟩
      else
        ⟨TurnResult.answered "yes", [current_prompt], s.2, rest⟩
    else
      let fu := if clarification_mode then (false, ([] : List AICall))
        else is_followup_question llm response valid_options
      if fu.1 then
        let sc := generate_smart_clarification llm primary_prompt response valid_options
        let r := ask_question_loop llm q valid_options primary_prompt true sc.1 rest
        ⟨r.result, current_prompt :: r.spoken, fu.2 ++ sc.2 ++ r.calls, r.rest⟩
      else
        let vo := validate_option llm response valid_options
        match vo.1 with
        | some validated =>
          (match q.exit_if with
          | some e =>
            if validated == pyLower e then
              let goodbye := q.exit_message.getD defaultExitMessage
              ⟨TurnResult.ended goodbye, [current_prompt, goodbye], fu.2 ++ vo.2, rest⟩
            else
              ⟨TurnResult.answered validated, [current_prompt], fu.2 ++ vo.2, rest⟩
          | none =>
            ⟨TurnResult.answered validated, [current_prompt], fu.2 ++ vo.2, rest⟩)
        | none =>
          let sc := generate_smart_clarification llm primary_prompt response valid_options
          let r := ask_question_loop llm q valid_options primary_prompt true sc.1 rest
          ⟨r.result, current_prompt :: r.spoken, fu.2 ++ vo.2 ++ sc.2 ++ r.calls, r.rest⟩

/-- `src/dialogue_utils.py:ask_question`: lower-case the options, then
run the loop with `clarification_mode = False` and `smart_prompt = ""`. -/
def ask_question (llm : List Msg → String) (q : Question) (inputs : List String) : AskOutcome :=
  ask_question_loop llm q (q.valid_options.map pyLower) q.question false "" inputs

/-- Terminal outcome of the outer question loop of
`fastagi_server.py:agi_main_flow_custom`. -/
inductive FlowOutcome where
  | completed
  | endedEarly (farewell : String)
  | noFuel
deriving DecidableEq

/-- Result of the outer loop: outcome, the `candidate_details` map (in
insertion order) and the keys of the questions actually asked. -/
structure FlowResult where
  outcome : FlowOutcome
  answers : List (String × String)
  asked : List String
deriving DecidableEq

/-- The `for q in questions` loop of
`fastagi_server.py:agi_main_flow_custom`: skip a question whose
`condition` evaluates false, otherwise ask it; `ask_question` returning
`None` (here `ended`) aborts the whole flow with nothing recorded for
that question. -/
def agi_flow_loop (llm : List Msg → String) :
    List Question → List String → List (String × String) → FlowResult
  | [], _, details => ⟨FlowOutcome.completed, details, []⟩
  | q :: qs, inputs, details =>
    let skip := match q.condition with
      | some cond => !(cond details)
      | none => false
    if skip then
      agi_flow_loop llm qs inputs details
    else
      let out := ask_question llm q inputs
      match out.result with
      | TurnResult.answered a =>
        let r := agi_flow_loop llm qs out.rest (details ++ [(q.key, a)])
        ⟨r.outcome, r.answers, q.key :: r.asked⟩
      | TurnResult.ended f => ⟨FlowOutcome.endedEarly f, details, [q.key]⟩
      | TurnResult.noFuel => ⟨FlowOutcome.noFuel, details, [q.key]⟩

/-- The mutable state of `dialogue_manager.py:DialogueManager`
(`self.questions`, `self.current_index`, `self.candidate_responses`,
`self.conversation_history`, plus the constructor-supplied names). -/
structure DMState where
  questions : List Question
  candidate_name : String
  company_name : String
  uniqueid : String
  current_index : Nat
  candidate_responses : List (String × String)
  conversation_history : List Msg

/-- `dialogue_manager.py:DialogueManager.__init__`: stores its arguments
and initializes index 0, empty responses and empty history.  It performs
no validation of the question specs. -/
def mkDialogueManager (questions : List Question)
    (candidate_name company_name uniqueid : String) : DMState :=
  ⟨questions, candidate_name, company_name, uniqueid, 0, [], []⟩

/-- The final message built by `process_input` when the question list is
exhausted. -/
def finalMessage (candidate_name company_name : String) : String :=
  "Fantastic, " ++ candidate_name ++ "! That's all we need for now. " ++
    "Thank you for your time. Our team at " ++ company_name ++
    " will review your details and reach out soon. Have a great day!"

/-- Result of `DialogueManager.process_input`: the returned dict
(`action`, `prompt`), the state after the call, and the AI-helper call
trace. -/
structure PIResult where
  action : String
  prompt : String
  state : DMState
  calls : List AICall

/-- The tail of `process_input` after a validated answer is obtained:
record it, append to the history, advance the cursor, and produce the
next prompt or the final message. -/
def advanceStep (st : DMState) (q : Question) (answer user_input : String)
    (calls : List AICall) : PIResult :=
  let st' : DMState :=
    { st with
        candidate_responses := st.candidate_responses ++ [(q.key, answer)],
        conversation_history := st.conversation_history ++ [Msg.mk "user" user_input],
        current_index := st.current_index + 1 }
  match st'.questions[st'.current_index]? with
  | some nq => ⟨"next", nq.question, st', calls⟩
  | none => ⟨"complete", finalMessage st.candidate_name st.company_name, st', calls⟩

/-- The `exit_if` check of `process_input` followed by `advanceStep`. -/
def afterAnswer (st : DMState) (q : Question) (answer user_input : String)
    (calls : List AICall) : PIResult :=
  let exitHit := match q.exit_if with
    | some e => answer == pyLower e
    | none => false
  if exitHit then
    ⟨"end", q.exit_message.getD defaultExitMessage, st, calls⟩
  else
    advanceStep st q answer user_input calls

/-- `dialogue_manager.py:DialogueManager.process_input`.  For yes/no
questions it consults `determine_sentiment` (negative ends the
conversation; everything else is the answer `"yes"`); otherwise it runs
`is_followup_question`, then `validate_option`, falling back to a smart
clarification.  Note it keeps no clarification-mode flag: each call
starts afresh. -/
def process_input (llm : List Msg → String) (st : DMState) (user_input : String) : PIResult :=
  match st.questions[st.current_index]? with
  | none => ⟨"complete", "", st, []⟩
  | some current_question =>
    let valid_options := current_question.valid_options.map pyLower
    if valid_options == ["yes", "no"] then
      let s := determine_sentiment llm user_input
      if s.1 == "negative" then
        ⟨"end", current_question.exit_message.getD defaultExitMessage, st, s.2⟩
      else
        afterAnswer st current_question "yes" user_input s.2
    else
      let fu := is_followup_question llm user_input valid_options
      if fu.1 then
        let sc := generate_smart_clarification llm current_question.question user_input valid_options
        ⟨"clarify", sc.1, st, fu.2 ++ sc.2⟩
      else
        let vo := validate_option llm user_input valid_options
        match vo.1 with
        | none =>
          let sc := generate_smart_clarification llm current_question.question user_input valid_options
          ⟨"clarify", sc.1, st, fu.2 ++ vo.2 ++ sc.2⟩
        | some answer =>
          afterAnswer st current_question answer user_input (fu.2 ++ vo.2)

/-- The fixed exit-keyword list of `agi_main.py:agi_main_flow`
(line 65). -/
def exit_keywords : List String :=
  ["bye", "exit", "quit", "end call", "goodbye", "thank you", "that's all"]

/-- The exit-intent check of `agi_main.py:agi_main_flow` (line 95):
`any(keyword in user_input.lower() for keyword in exit_keywords)`. -/
def exitIntent (user_input : String) : Bool :=
  exit_keywords.any (fun keyword => strContains (pyLower user_input) keyword)

/-- Is a trace entry an `is_followup_question` invocation? -/
def isFollowupCall : AICall → Bool
  | AICall.followup _ _ => true
  | _ => false

/-- Number of `is_followup_question` invocations in a trace. -/
def countFollowup (calls : List AICall) : Nat :=
  (calls.filter isFollowupCall).length

/-! ## Sample data used by concrete counterexamples and witnesses -/

/-- The third question of the `fastagi_server.py` script (binary, no
`exit_if`), without its `condition`. -/
def qDiploma : Question :=
  ⟨"diploma", "Do you also have a 3-year diploma?", ["yes", "no"], none, none, none⟩

/-- A non-binary location question in the style of the script. -/
def qLoc : Question :=
  ⟨"location", "Where?", ["amritsar", "pune"], none, none, none⟩

/-- A binary question whose `exit_if` is `"yes"`. -/
def qExitYes : Question :=
  ⟨"confirm", "Still interested?", ["yes", "no"], some "yes", some "Bye!", none⟩

/-- A non-binary question with an exit trigger. -/
def qJob : Question :=
  ⟨"job_type", "Full time or other?", ["full time", "other"], some "other",
    some "Understood, bye!", none⟩

/-- A question with empty `valid_options` (malformed per the spec). -/
def qBad : Question := ⟨"bad", "Pick one.", [], none, none, none⟩

/-! ## Helper lemmas -/

/-- `startsWithList` decides the prefix relation. -/
theorem startsWithList_iff (pat : List Char) : ∀ l : List Char,
    startsWithList pat l = true ↔ ∃ t, pat ++ t = l := by
  induction pat with
  | nil => intro l; simp [startsWithList]
  | cons p ps ih =>
    intro l
    cases l with
    | nil => simp [startsWithList]
    | cons c cs =>
      simp only [startsWithList, Bool.and_eq_true, beq_iff_eq, ih cs, List.cons_append,
        List.cons.injEq]
      constructor
      · rintro ⟨hpc, t, ht⟩
        exact ⟨t, hpc, ht⟩
      · rintro ⟨t, hpc, ht⟩
        exact ⟨hpc, t, ht⟩

/-- `containsList` decides the substring (contiguous sublist) relation. -/
theorem containsList_iff (pat : List Char) : ∀ hay : List Char,
    containsList pat hay = true ↔ ∃ l r, l ++ pat ++ r = hay := by
  intro hay
  induction hay with
  | nil =>
    simp only [containsList, List.isEmpty_iff]
    constructor
    · rintro rfl
      exact ⟨[], [], rfl⟩
    · rintro ⟨l, r, hlr⟩
      rcases List.append_eq_nil.mp hlr with ⟨hlp, hr⟩
      exact (List.append_eq_nil.mp hlp).2
  | cons c cs ih =>
    simp only [containsList, Bool.or_eq_true, startsWithList_iff, ih]
    constructor
    · rintro (⟨t, ht⟩ | ⟨l, r, hlr⟩)
      · exact ⟨[], t, by simpa using ht⟩
      · exact ⟨c :: l, r, by simp [← hlr]⟩
    · rintro ⟨l, r, hlr⟩
      cases l with
      | nil => exact Or.inl ⟨r, by simpa using hlr⟩
      | cons x xs =>
        rcases List.cons.injEq .. ▸ hlr with ⟨hx, hxs⟩
        exact Or.inr ⟨xs, r, hxs⟩

/-- Under an always-failing backend, `query_llm` returns the apology
string on every conversation. -/
theorem query_llm_apology (backend : List Msg → Except String String)
    (hfail : ∀ msgs, ∃ e, backend msgs = Except.error e) :
    ∀ conv, query_llm backend conv = apologyMsg := by
  intro conv
  simp only [query_llm]
  rcases hfail (conv.filterMap (fun m =>
    if m.role == "system" then some m
    else if m.role == "user" then some m
    else none)) with ⟨e, he⟩
  rw [he]

/-- Under an always-failing backend, `determine_sentiment` reports
`"positive"` (the apology string does not contain `"negative"`). -/
theorem sentiment_apology (backend : List Msg → Except String String)
    (hfail : ∀ msgs, ∃ e, backend msgs = Except.error e) :
    ∀ response, (determine_sentiment (query_llm backend) response).1 = "positive" := by
  intro response
  simp only [determine_sentiment, query_llm_apology backend hfail]
  have h : strContains (pyLower (clean_llm_response apologyMsg)) "negative" = false := by decide
  simp [h]

/-- Under an always-failing backend, `validate_option` returns `None`
whenever the lower-cased apology string is not itself a valid option. -/
theorem validate_apology (backend : List Msg → Except String String)
    (hfail : ∀ msgs, ∃ e, backend msgs = Except.error e)
    (valid_options : List String)
    (hmem : valid_options.contains (pyLower apologyMsg) = false) :
    ∀ response, (validate_option (query_llm backend) response valid_options).1 = none := by
  intro response
  simp only [validate_option, query_llm_apology backend hfail]
  have h : pyLower (pyStrip (clean_llm_response apologyMsg)) = pyLower apologyMsg := by decide
  have h2 : pyLower apologyMsg ∉ valid_options := by simpa using hmem
  simp [h, h2]

/-- Under an always-failing backend, `is_followup_question` reports
`false` (the apology string is not `"yes"`). -/
theorem followup_apology (backend : List Msg → Except String String)
    (hfail : ∀ msgs, ∃ e, backend msgs = Except.error e) :
    ∀ response valid_options,
      (is_followup_question (query_llm backend) response valid_options).1 = false := by
  intro response valid_options
  simp only [is_followup_question, query_llm_apology backend hfail]
  have h : (pyLower (pyStrip (clean_llm_response apologyMsg)) == "yes") = false := by decide
  simp [h]

/-- Under an always-failing backend, `generate_smart_clarification`
returns exactly the apology string. -/
theorem smart_apology (backend : List Msg → Except String String)
    (hfail : ∀ msgs, ∃ e, backend msgs = Except.error e) :
    ∀ p f valid_options,
      (generate_smart_clarification (query_llm backend) p f valid_options).1 = apologyMsg := by
  intro p f valid_options
  simp only [generate_smart_clarification, query_llm_apology backend hfail]
  decide

/-! ## Claim C7: exit-intent detector -/

/-- C7 counterexample: the claim says the exit-intent detector returns
true whenever the response contains `"no"` or `"not interested"`, or
when it holds at least two negative-lexicon words (`"not"`, `"never"`,
`"can't"`).  The response `"no not interested never"` contains `"no"`
and `"not interested"` and three such lexicon words, yet the code's
check (substring match against
`["bye", "exit", "quit", "end call", "goodbye", "thank you", "that's all"]`)
returns false: neither a `"no"` keyword nor any negative-word counting
tier exists in `agi_main.py`. -/
theorem C7_counterexample :
    exitIntent "no not interested never" = false ∧
    exitIntent "not never happening" = false ∧
    exitIntent "ok thank you" = true := by
  refine ⟨by decide, by decide, by decide⟩

/-- C7 (amended): the exit-intent check of `agi_main.py` returns true
exactly when one of the seven fixed keywords `"bye"`, `"exit"`,
`"quit"`, `"end call"`, `"goodbye"`, `"thank you"`, `"that's all"`
occurs as a contiguous substring of the lower-cased response; there is
no `"no"`/`"not interested"` keyword and no negative-lexicon counting
tier. -/
theorem C7_amended (user_input : String) :
    exitIntent user_input = true ↔
      ∃ k, k ∈ exit_keywords ∧ ∃ l r, l ++ k.data ++ r = (pyLower user_input).data := by
  simp only [exitIntent, List.any_eq_true, strContains, containsList_iff]

/-! ## Claim C8: semantic option classifier output filtering -/

/-- C8: `validate_option` accepts the LLM output only when, after
cleaning, stripping and lower-casing, it is literally an element of
`valid_options`; every other output is mapped to `None` (the
`Ambiguous` signal).  Hence the returned value is either `None` or one
of the valid options — never any other string. -/
theorem C8_validate_option_only_valid (llm : List Msg → String) (response : String)
    (valid_options : List String) :
    (∀ s, (validate_option llm response valid_options).1 = some s → s ∈ valid_options) ∧
    ((validate_option llm response valid_options).1 = none ∨
      ∃ s, s ∈ valid_options ∧ (validate_option llm response valid_options).1 = some s) := by
  have key : ∀ s, (validate_option llm response valid_options).1 = some s → s ∈ valid_options := by
    intro s hs
    simp only [validate_option] at hs
    split at hs
    · next h =>
      cases hs
      simpa using h
    · cases hs
  refine ⟨key, ?_⟩
  cases hvo : (validate_option llm response valid_options).1 with
  | none => exact Or.inl rfl
  | some s => exact Or.inr ⟨s, key s hvo, rfl⟩

/-- C8 witness: a collaborator output `"pune"` against options
`["amritsar", "pune"]` is accepted, and the theorem places it in the
option list. -/
theorem C8_witness :
    (validate_option (fun _ => "pune") "anything" ["amritsar", "pune"]).1 = some "pune" ∧
    "pune" ∈ ["amritsar", "pune"] :=
  ⟨by decide,
    (C8_validate_option_only_valid (fun _ => "pune") "anything" ["amritsar", "pune"]).1
      "pune" (by decide)⟩

/-! ## Claim C10: query_llm swallows backend exceptions -/

/-- C10: `query_llm` is total over collaborator behaviour: whenever the
backend raises (modelled as `Except.error`), it returns the fixed
apology string, and the sentiment, option-validation, follow-up and
clarification helpers consume that string as if it were a model answer
(yielding `"positive"`, `None`, `false` and the apology string
itself). -/
theorem C10_query_llm_total (backend : List Msg → Except String String)
    (hfail : ∀ msgs, ∃ e, backend msgs = Except.error e) :
    (∀ conv, query_llm backend conv = apologyMsg) ∧
    (∀ response, (determine_sentiment (query_llm backend) response).1 = "positive") ∧
    (∀ response valid_options, valid_options.contains (pyLower apologyMsg) = false →
      (validate_option (query_llm backend) response valid_options).1 = none) ∧
    (∀ response valid_options,
      (is_followup_question (query_llm backend) response valid_options).1 = false) ∧
    (∀ p f valid_options,
      (generate_smart_clarification (query_llm backend) p f valid_options).1 = apologyMsg) :=
  ⟨query_llm_apology backend hfail,
    sentiment_apology backend hfail,
    fun response valid_options hmem => validate_apology backend hfail valid_options hmem response,
    followup_apology backend hfail,
    smart_apology backend hfail⟩

/-- C10 witness at an always-failing backend. -/
theorem C10_witness :
    query_llm (fun _ => Except.error "backend down") [Msg.mk "user" "track my order"] = apologyMsg ∧
    (determine_sentiment (query_llm (fun _ => Except.error "backend down")) "great").1 = "positive" ∧
    (validate_option (query_llm (fun _ => Except.error "backend down")) "pune"
      ["amritsar", "pune"]).1 = none :=
  ⟨(C10_query_llm_total _ (fun _ => ⟨"backend down", rfl⟩)).1 _,
    (C10_query_llm_total _ (fun _ => ⟨"backend down", rfl⟩)).2.1 _,
    (C10_query_llm_total _ (fun _ => ⟨"backend down", rfl⟩)).2.2.1 "pune" ["amritsar", "pune"]
      (by decide)⟩

/-- The call trace of one `is_followup_question` invocation. -/
theorem followup_calls (llm : List Msg → String) (r : String) (o : List String) :
    (is_followup_question llm r o).2 = [AICall.followup r o] := rfl

/-- The call trace of one `validate_option` invocation. -/
theorem validate_calls (llm : List Msg → String) (r : String) (o : List String) :
    (validate_option llm r o).2 = [AICall.validate r o] := rfl

/-- The call trace of one `determine_sentiment` invocation. -/
theorem sentiment_calls (llm : List Msg → String) (r : String) :
    (determine_sentiment llm r).2 = [AICall.sentiment r] := rfl

/-- The call trace of one `generate_smart_clarification` invocation. -/
theorem smart_calls (llm : List Msg → String) (p f : String) (o : List String) :
    (generate_smart_clarification llm p f o).2 = [AICall.smartClarify p f o] := rfl

/-- `afterAnswer` performs no further AI calls: it passes the trace
through unchanged. -/
theorem afterAnswer_calls (st : DMState) (q : Question) (a ui : String) (calls : List AICall) :
    (afterAnswer st q a ui calls).calls = calls := by
  simp only [afterAnswer, advanceStep]
  split
  · rfl
  · split <;> rfl

/-! ## Claim C1: no direct match before the semantic call -/

/-- C1 counterexample: the claim says a response that case-insensitively
equals one of `valid_options` is matched directly, before and without
any LLM call.  But `validate_option` consults the LLM unconditionally:
with a collaborator that answers `"none"`, the response `"pune"` —
literally one of the options — is not matched at all, and the
classifier issues three LLM calls (follow-up check, option validation,
clarification generation) before answering `clarify`. -/
theorem C1_counterexample :
    "pune" ∈ ["amritsar", "pune"] ∧
    (validate_option (fun _ => "none") "pune" ["amritsar", "pune"]).1 = none ∧
    (process_input (fun _ => "none") (mkDialogueManager [qLoc] "C" "M" "u") "pune").action =
      "clarify" ∧
    (process_input (fun _ => "none") (mkDialogueManager [qLoc] "C" "M" "u") "pune").calls.length =
      3 :=
  ⟨by decide, by decide, by decide, by decide⟩

/-- C1 (amended): for non-binary questions the classifier always
consults the semantic collaborator — the call trace is never empty —
and the outcome is decided solely by the collaborator outputs: if the
follow-up check answers no and `validate_option` returns `None`, the
result is `clarify` even when the response itself equals a valid
option. -/
theorem C1_amended (llm : List Msg → String) (st : DMState) (input : String) (q : Question)
    (hget : st.questions[st.current_index]? = some q)
    (hnb : q.valid_options.map pyLower ≠ ["yes", "no"]) :
    (process_input llm st input).calls ≠ [] ∧
    ((is_followup_question llm input (q.valid_options.map pyLower)).1 = false →
      (validate_option llm input (q.valid_options.map pyLower)).1 = none →
      (process_input llm st input).action = "clarify") := by
  constructor
  · by_cases hfu : (is_followup_question llm input (q.valid_options.map pyLower)).1
    · simp [process_input, hget, hnb, hfu, followup_calls]
    · cases hvo : (validate_option llm input (q.valid_options.map pyLower)).1 with
      | none =>
        simp [process_input, hget, hnb, hfu, hvo, followup_calls, validate_calls]
      | some a =>
        simp [process_input, hget, hnb, hfu, hvo, followup_calls, validate_calls,
          afterAnswer_calls]
  · intro h1 h2
    simp [process_input, hget, hnb, h1, h2]

/-- C1 witness: a non-binary question, an ambiguous collaborator, and a
response for which the amended theorem applies. -/
theorem C1_witness :
    ((mkDialogueManager [qJob] "C" "M" "u").questions[
        (mkDialogueManager [qJob] "C" "M" "u").current_index]? = some qJob) ∧
    qJob.valid_options.map pyLower ≠ ["yes", "no"] ∧
    (process_input (fun _ => "none") (mkDialogueManager [qJob] "C" "M" "u")
        "full time please").calls ≠ [] ∧
    (process_input (fun _ => "none") (mkDialogueManager [qJob] "C" "M" "u")
        "full time please").action = "clarify" :=
  ⟨rfl, by decide,
    (C1_amended (fun _ => "none") (mkDialogueManager [qJob] "C" "M" "u") "full time please"
      qJob rfl (by decide)).1,
    (C1_amended (fun _ => "none") (mkDialogueManager [qJob] "C" "M" "u") "full time please"
      qJob rfl (by decide)).2 (by decide) (by decide)⟩

/-! ## Claim C2: binary questions and negative sentiment -/

/-- C2 counterexample: the claim says a negative-sentiment response to a
yes/no question yields `Matched("no")`.  `qDiploma` is a yes/no question
with no exit trigger, so `Matched("no")` would record `"no"` under key
`"diploma"` and advance the cursor.  Instead the code returns action
`"end"` with the default farewell: the session terminates, nothing is
recorded and the cursor does not move. -/
theorem C2_counterexample :
    (process_input (fun _ => "negative") (mkDialogueManager [qDiploma] "C" "M" "u")
        "nope").action = "end" ∧
    (process_input (fun _ => "negative") (mkDialogueManager [qDiploma] "C" "M" "u")
        "nope").prompt = defaultExitMessage ∧
    (process_input (fun _ => "negative") (mkDialogueManager [qDiploma] "C" "M" "u")
        "nope").state.candidate_responses = [] ∧
    (process_input (fun _ => "negative") (mkDialogueManager [qDiploma] "C" "M" "u")
        "nope").state.current_index = 0 :=
  ⟨by decide, by decide, rfl, rfl⟩

/-- C2 (amended): for a yes/no question, a negative sentiment ends the
conversation with the question's `exit_message` (or the default
farewell), leaving the state untouched — no answer `"no"` is ever
produced; any other sentiment is treated as the matched answer `"yes"`
(subject to the usual exit-trigger check and recording). -/
theorem C2_amended (llm : List Msg → String) (st : DMState) (input : String) (q : Question)
    (hget : st.questions[st.current_index]? = some q)
    (hq : q.valid_options.map pyLower = ["yes", "no"]) :
    ((determine_sentiment llm input).1 = "negative" →
      (process_input llm st input).action = "end" ∧
      (process_input llm st input).prompt = q.exit_message.getD defaultExitMessage ∧
      (process_input llm st input).state = st) ∧
    ((determine_sentiment llm input).1 ≠ "negative" →
      process_input llm st input = afterAnswer st q "yes" input (determine_sentiment llm input).2) := by
  constructor
  · intro hneg
    simp [process_input, hget, hq, hneg]
  · intro hpos
    simp [process_input, hget, hq, hpos]

/-- C2 witness: a negative collaborator on the diploma question ends the
conversation. -/
theorem C2_witness :
    ((mkDialogueManager [qDiploma] "C" "M" "u").questions[
        (mkDialogueManager [qDiploma] "C" "M" "u").current_index]? = some qDiploma) ∧
    qDiploma.valid_options.map pyLower = ["yes", "no"] ∧
    (determine_sentiment (fun _ => "negative") "nope").1 = "negative" ∧
    (process_input (fun _ => "negative") (mkDialogueManager [qDiploma] "C" "M" "u")
        "nope").action = "end" :=
  ⟨rfl, by decide, by decide,
    ((C2_amended (fun _ => "negative") (mkDialogueManager [qDiploma] "C" "M" "u") "nope"
      qDiploma rfl (by decide)).1 (by decide)).1⟩

/-! ## Claim C4: construction-time validation -/

/-- C4 counterexample: the claim says a malformed spec (here: empty
`valid_options`) is rejected with a `ConfigError` at construction time.
Instead `DialogueManager.__init__` stores the malformed list untouched,
and only at runtime does the defect surface: every input to the
malformed question yields `clarify` forever, since no LLM output can be
an element of the empty option list. -/
theorem C4_counterexample :
    (mkDialogueManager [qBad] "C" "M" "u").questions = [qBad] ∧
    (mkDialogueManager [qBad] "C" "M" "u").current_index = 0 ∧
    (process_input (fun _ => "anything") (mkDialogueManager [qBad] "C" "M" "u")
        "the first option").action = "clarify" :=
  ⟨rfl, rfl, by decide⟩

/-- C4 (amended): `DialogueManager.__init__` performs no validation at
all — it accepts every question list, malformed or not, and merely
stores it — and a question with empty `valid_options` can never be
answered at runtime: every input produces `clarify`. -/
theorem C4_amended :
    (∀ (questions : List Question) (n c u : String),
      mkDialogueManager questions n c u = ⟨questions, n, c, u, 0, [], []⟩) ∧
    (∀ (llm : List Msg → String) (st : DMState) (input : String) (q : Question),
      st.questions[st.current_index]? = some q →
      q.valid_options = [] →
      (process_input llm st input).action = "clarify") := by
  constructor
  · intro questions n c u
    rfl
  · intro llm st input q hget hopts
    have hnb : q.valid_options.map pyLower ≠ ["yes", "no"] := by
      rw [hopts]; decide
    by_cases hfu : (is_followup_question llm input (q.valid_options.map pyLower)).1
    · simp [process_input, hget, hnb, hfu]
    · have hvo : (validate_option llm input (q.valid_options.map pyLower)).1 = none := by
        rw [hopts]; rfl
      simp [process_input, hget, hnb, hfu, hvo]

/-- C4 witness: the malformed question list passes construction and
clarifies forever at runtime. -/
theorem C4_witness :
    ((mkDialogueManager [qBad] "C" "M" "u").questions[
        (mkDialogueManager [qBad] "C" "M" "u").current_index]? = some qBad) ∧
    qBad.valid_options = [] ∧
    mkDialogueManager [qBad] "C" "M" "u" = ⟨[qBad], "C", "M", "u", 0, [], []⟩ ∧
    (process_input (fun _ => "first") (mkDialogueManager [qBad] "C" "M" "u")
        "the first option").action = "clarify" :=
  ⟨rfl, rfl, C4_amended.1 [qBad] "C" "M" "u",
    C4_amended.2 (fun _ => "first") (mkDialogueManager [qBad] "C" "M" "u")
      "the first option" qBad rfl rfl⟩

/-! ## Claim C6: follow-up classification once per question turn -/

/-- `countFollowup` of the empty trace. -/
theorem countFollowup_nil : countFollowup [] = 0 := rfl

/-- `countFollowup` distributes over cons. -/
theorem countFollowup_cons (a : AICall) (l : List AICall) :
    countFollowup (a :: l) = (if isFollowupCall a then 1 else 0) + countFollowup l := by
  cases a <;> simp [countFollowup, isFollowupCall, List.filter_cons, Nat.add_comm]

/-- Once `ask_question` has entered clarification mode, no later
iteration ever invokes `is_followup_question` (the check is
short-circuited by `not clarification_mode`). -/
theorem loop_clarify_no_followup (llm : List Msg → String) (q : Question)
    (vo : List String) (pp : String) :
    ∀ (inputs : List String) (smart : String),
      countFollowup (ask_question_loop llm q vo pp true smart inputs).calls = 0 := by
  intro inputs
  induction inputs with
  | nil => intro smart; simp [ask_question_loop, countFollowup]
  | cons raw rest ih =>
    intro smart
    by_cases hr : pyLower (pyStrip raw) = ""
    · simp [ask_question_loop, hr, countFollowup]
    · by_cases hb : vo = ["yes", "no"]
      · by_cases hs : (determine_sentiment llm (pyLower (pyStrip raw))).1 = "negative" <;>
          simp [ask_question_loop, hr, hb, hs, sentiment_calls, countFollowup_cons,
            countFollowup_nil, isFollowupCall]
      · cases hvo : (validate_option llm (pyLower (pyStrip raw)) vo).1 with
        | some v =>
          cases he : q.exit_if with
          | some e =>
            by_cases hve : v = pyLower e <;>
              simp [ask_question_loop, hr, hb, hvo, he, hve, validate_calls,
                countFollowup_cons, countFollowup_nil, isFollowupCall]
          | none =>
            simp [ask_question_loop, hr, hb, hvo, he, validate_calls, countFollowup_cons,
              countFollowup_nil, isFollowupCall]
        | none =>
          have hrec := ih (generate_smart_clarification llm pp (pyLower (pyStrip raw)) vo).1
          simp [ask_question_loop, hr, hb, hvo, validate_calls, smart_calls,
            countFollowup_cons, countFollowup_nil, isFollowupCall, hrec]

/-- Within one `ask_question` turn, the follow-up classifier is invoked
at most once, whatever the collaborator answers and however long the
clarification loop runs. -/
theorem ask_question_followup_le_one (llm : List Msg → String) (q : Question)
    (inputs : List String) :
    countFollowup (ask_question llm q inputs).calls ≤ 1 := by
  unfold ask_question
  cases inputs with
  | nil => simp [ask_question_loop, countFollowup]
  | cons raw rest =>
    by_cases hr : pyLower (pyStrip raw) = ""
    · simp [ask_question_loop, hr, countFollowup]
    · by_cases hb : q.valid_options.map pyLower = ["yes", "no"]
      · by_cases hs : (determine_sentiment llm (pyLower (pyStrip raw))).1 = "negative" <;>
          simp [ask_question_loop, hr, hb, hs, sentiment_calls, countFollowup_cons,
            countFollowup_nil, isFollowupCall]
      · by_cases hfu : (is_followup_question llm (pyLower (pyStrip raw))
            (q.valid_options.map pyLower)).1
        · have h0 := loop_clarify_no_followup llm q (q.valid_options.map pyLower) q.question rest
            (generate_smart_clarification llm q.question (pyLower (pyStrip raw))
              (q.valid_options.map pyLower)).1
          simp [ask_question_loop, hr, hb, hfu, followup_calls, smart_calls,
            countFollowup_cons, countFollowup_nil, isFollowupCall, h0]
        · cases hvo : (validate_option llm (pyLower (pyStrip raw))
              (q.valid_options.map pyLower)).1 with
          | some v =>
            cases he : q.exit_if with
            | some e =>
              by_cases hve : v = pyLower e <;>
                simp [ask_question_loop, hr, hb, hfu, hvo, he, hve, followup_calls,
                  validate_calls, countFollowup_cons, countFollowup_nil, isFollowupCall]
            | none =>
              simp [ask_question_loop, hr, hb, hfu, hvo, he, followup_calls, validate_calls,
                countFollowup_cons, countFollowup_nil, isFollowupCall]
          | none =>
            have h0 := loop_clarify_no_followup llm q (q.valid_options.map pyLower) q.question
              rest (generate_smart_clarification llm q.question (pyLower (pyStrip raw))
                (q.valid_options.map pyLower)).1
            simp [ask_question_loop, hr, hb, hfu, hvo, followup_calls, validate_calls,
              smart_calls, countFollowup_cons, countFollowup_nil, isFollowupCall, h0]

/-- Every `process_input` call on a non-binary question invokes the
follow-up classifier exactly once — also on re-prompts after a
clarification, since the manager keeps no clarification-mode flag. -/
theorem process_input_followup_count (llm : List Msg → String) (st : DMState) (input : String)
    (q : Question) (hget : st.questions[st.current_index]? = some q)
    (hnb : q.valid_options.map pyLower ≠ ["yes", "no"]) :
    countFollowup (process_input llm st input).calls = 1 := by
  by_cases hfu : (is_followup_question llm input (q.valid_options.map pyLower)).1
  · simp [process_input, hget, hnb, hfu, followup_calls, smart_calls, countFollowup_cons,
      countFollowup_nil, isFollowupCall]
  · cases hvo : (validate_option llm input (q.valid_options.map pyLower)).1 with
    | none =>
      simp [process_input, hget, hnb, hfu, hvo, followup_calls, validate_calls, smart_calls,
        countFollowup_cons, countFollowup_nil, isFollowupCall]
    | some a =>
      simp [process_input, hget, hnb, hfu, hvo, followup_calls, validate_calls,
        afterAnswer_calls, countFollowup_cons, countFollowup_nil, isFollowupCall]

/-- C6 counterexample: in the `DialogueManager.process_input`
implementation, a clarification turn does not suppress the follow-up
check.  With a collaborator answering `"none"`, the first ambiguous
response yields `clarify` and leaves the state unchanged, and the next
response for the *same* question triggers a second
`is_followup_question` invocation: two follow-up checks in a single
question turn, contradicting "invoked at most once per turn". -/
theorem C6_counterexample :
    (process_input (fun _ => "none") (mkDialogueManager [qLoc] "C" "M" "u") "maybe").action =
      "clarify" ∧
    (process_input (fun _ => "none") (mkDialogueManager [qLoc] "C" "M" "u") "maybe").state =
      mkDialogueManager [qLoc] "C" "M" "u" ∧
    countFollowup
        (process_input (fun _ => "none") (mkDialogueManager [qLoc] "C" "M" "u") "maybe").calls +
      countFollowup
        (process_input (fun _ => "none")
          (process_input (fun _ => "none") (mkDialogueManager [qLoc] "C" "M" "u") "maybe").state
          "still maybe").calls = 2 :=
  ⟨by decide, rfl, by decide⟩

/-- C6 (amended): in `ask_question` the follow-up classifier is indeed
invoked at most once per question turn (never again after clarification
mode is entered), but in the `DialogueManager.process_input`
implementation every non-binary input — including each re-prompt after
a clarification — invokes it exactly once, so there it is re-checked on
later ambiguous responses. -/
theorem C6_amended (llm : List Msg → String) :
    (∀ (q : Question) (inputs : List String),
      countFollowup (ask_question llm q inputs).calls ≤ 1) ∧
    (∀ (st : DMState) (input : String) (q : Question),
      st.questions[st.current_index]? = some q →
      q.valid_options.map pyLower ≠ ["yes", "no"] →
      countFollowup (process_input llm st input).calls = 1) :=
  ⟨fun q inputs => ask_question_followup_le_one llm q inputs,
    fun st input q hget hnb => process_input_followup_count llm st input q hget hnb⟩

/-- C6 witness: a full clarification run of `ask_question` contains one
follow-up check, and a `process_input` clarification turn does too. -/
theorem C6_witness :
    countFollowup (ask_question (fun _ => "none") qLoc ["maybe", "hmm", "pune"]).calls ≤ 1 ∧
    ((mkDialogueManager [qLoc] "C" "M" "u").questions[
        (mkDialogueManager [qLoc] "C" "M" "u").current_index]? = some qLoc) ∧
    qLoc.valid_options.map pyLower ≠ ["yes", "no"] ∧
    countFollowup (process_input (fun _ => "none") (mkDialogueManager [qLoc] "C" "M" "u")
      "maybe").calls = 1 :=
  ⟨(C6_amended (fun _ => "none")).1 qLoc ["maybe", "hmm", "pune"],
    rfl, by decide,
    (C6_amended (fun _ => "none")).2 (mkDialogueManager [qLoc] "C" "M" "u") "maybe" qLoc
      rfl (by decide)⟩

/-! ## Claim C9: binary questions only ever record "yes" -/

/-- `advanceStep` records exactly the given answer under the question's
key. -/
theorem advanceStep_responses (st : DMState) (q : Question) (a ui : String)
    (calls : List AICall) :
    (advanceStep st q a ui calls).state.candidate_responses =
      st.candidate_responses ++ [(q.key, a)] := by
  simp only [advanceStep]
  split <;> rfl

/-- `afterAnswer` either ends (state untouched) or records the answer. -/
theorem afterAnswer_state (st : DMState) (q : Question) (a ui : String)
    (calls : List AICall) :
    (afterAnswer st q a ui calls).state = st ∨
    (afterAnswer st q a ui calls).state.candidate_responses =
      st.candidate_responses ++ [(q.key, a)] := by
  simp only [afterAnswer]
  split
  · exact Or.inl rfl
  · exact Or.inr (advanceStep_responses st q a ui calls)

/-- C9: for a yes/no question, the only answer that can ever be
produced (and hence recorded) is `"yes"`: in `ask_question` the binary
branch returns `"yes"` or terminates the session, and in
`process_input` the recorded value for such a question is always
`"yes"`, never `"no"`. -/
theorem C9_binary_answer_always_yes (llm : List Msg → String) (q : Question)
    (hq : q.valid_options.map pyLower = ["yes", "no"]) :
    (∀ (inputs : List String) (a : String),
      (ask_question llm q inputs).result = TurnResult.answered a → a = "yes") ∧
    (∀ (st : DMState) (input : String),
      st.questions[st.current_index]? = some q →
      (process_input llm st input).state.candidate_responses = st.candidate_responses ∨
      (process_input llm st input).state.candidate_responses =
        st.candidate_responses ++ [(q.key, "yes")]) := by
  constructor
  · intro inputs a h
    cases inputs with
    | nil => simp [ask_question, ask_question_loop] at h
    | cons raw rest =>
      by_cases hr : pyLower (pyStrip raw) = ""
      · simp [ask_question, ask_question_loop, hr] at h
      · by_cases hs : (determine_sentiment llm (pyLower (pyStrip raw))).1 = "negative"
        · simp [ask_question, ask_question_loop, hr, hq, hs] at h
        · simp [ask_question, ask_question_loop, hr, hq, hs] at h
          exact h.symm
  · intro st input hget
    by_cases hs : (determine_sentiment llm input).1 = "negative"
    · have hst : (process_input llm st input).state = st := by
        simp [process_input, hget, hq, hs]
      exact Or.inl (by rw [hst])
    · have hpi : process_input llm st input =
          afterAnswer st q "yes" input (determine_sentiment llm input).2 := by
        simp [process_input, hget, hq, hs]
      rw [hpi]
      rcases afterAnswer_state st q "yes" input (determine_sentiment llm input).2 with h | h
      · exact Or.inl (by rw [h])
      · exact Or.inr h

/-- C9 witness: a positive answer to the diploma question comes out as
`"yes"`. -/
theorem C9_witness :
    qDiploma.valid_options.map pyLower = ["yes", "no"] ∧
    (ask_question (fun _ => "yes of course") qDiploma ["yes sir"]).result =
      TurnResult.answered "yes" ∧
    "yes" = "yes" :=
  ⟨by decide, by decide,
    (C9_binary_answer_always_yes (fun _ => "yes of course") qDiploma (by decide)).1
      ["yes sir"] "yes" (by decide)⟩

/-! ## Claim C5: exit triggers end the conversation -/

/-- In the non-binary path of `ask_question`, an answer equal to the
exit trigger can never escape as an `answered` result: the exit check
intercepts it. -/
theorem loop_answered_ne_trigger (llm : List Msg → String) (q : Question)
    (vo : List String) (pp e : String)
    (hnb : vo ≠ ["yes", "no"]) (he : q.exit_if = some e) :
    ∀ (inputs : List String) (cm : Bool) (smart a : String),
      (ask_question_loop llm q vo pp cm smart inputs).result = TurnResult.answered a →
      a ≠ pyLower e := by
  intro inputs
  induction inputs with
  | nil =>
    intro cm smart a h
    simp [ask_question_loop] at h
  | cons raw rest ih =>
    intro cm smart a h
    by_cases hr : pyLower (pyStrip raw) = ""
    · simp [ask_question_loop, hr] at h
    · cases cm with
      | true =>
        cases hvo : (validate_option llm (pyLower (pyStrip raw)) vo).1 with
        | some v =>
          by_cases hve : v = pyLower e
          · simp [ask_question_loop, hr, hnb, he, hvo, hve] at h
          · simp [ask_question_loop, hr, hnb, he, hvo, hve] at h
            subst h
            exact hve
        | none =>
          simp [ask_question_loop, hr, hnb, hvo] at h
          exact ih _ _ _ h
      | false =>
        by_cases hfu : (is_followup_question llm (pyLower (pyStrip raw)) vo).1
        · simp [ask_question_loop, hr, hnb, hfu] at h
          exact ih _ _ _ h
        · cases hvo : (validate_option llm (pyLower (pyStrip raw)) vo).1 with
          | some v =>
            by_cases hve : v = pyLower e
            · simp [ask_question_loop, hr, hnb, hfu, he, hvo, hve] at h
            · simp [ask_question_loop, hr, hnb, hfu, he, hvo, hve] at h
              subst h
              exact hve
          | none =>
            simp [ask_question_loop, hr, hnb, hfu, hvo] at h
            exact ih _ _ _ h

/-- One-step form: when the validated answer equals the exit trigger,
`ask_question` ends with the configured `exit_message` (or the default
farewell). -/
theorem ask_question_trigger_ends (llm : List Msg → String) (q : Question) (e : String)
    (hnb : q.valid_options.map pyLower ≠ ["yes", "no"])
    (he : q.exit_if = some e) (raw : String) (rest : List String)
    (hr : pyLower (pyStrip raw) ≠ "")
    (hfu : (is_followup_question llm (pyLower (pyStrip raw))
      (q.valid_options.map pyLower)).1 = false)
    (hvo : (validate_option llm (pyLower (pyStrip raw)) (q.valid_options.map pyLower)).1 =
      some (pyLower e)) :
    (ask_question llm q (raw :: rest)).result =
      TurnResult.ended (q.exit_message.getD defaultExitMessage) := by
  simp [ask_question, ask_question_loop, hr, hnb, hfu, hvo, he]

/-- When `ask_question` ends a turn, the outer question loop stops with
`ended_early`, records nothing for that question, and asks no further
question. -/
theorem flow_ended_stops (llm : List Msg → String) (q : Question) (qs : List Question)
    (inputs : List String) (details : List (String × String)) (f : String)
    (hcond : q.condition = none)
    (hout : (ask_question llm q inputs).result = TurnResult.ended f) :
    agi_flow_loop llm (q :: qs) inputs details =
      ⟨FlowOutcome.endedEarly f, details, [q.key]⟩ := by
  simp [agi_flow_loop, hcond, hout]

/-- C5 counterexample: the claim quantifies over every matched answer
equal to the exit trigger.  For the binary question `qExitYes` (a
yes/no question with `exit_if = "yes"`), a positive-sentiment response
produces the matched answer `"yes"` — equal to the trigger — yet
`ask_question` returns it as an ordinary answer: the binary branch
bypasses the exit check, the flow records it and completes instead of
ending early with `"Bye!"`. -/
theorem C5_counterexample :
    qExitYes.exit_if = some "yes" ∧
    (ask_question (fun _ => "sounds good") qExitYes ["sure"]).result =
      TurnResult.answered "yes" ∧
    agi_flow_loop (fun _ => "sounds good") [qExitYes] ["sure"] [] =
      ⟨FlowOutcome.completed, [("confirm", "yes")], ["confirm"]⟩ :=
  ⟨rfl, by decide, by decide⟩

/-- C5 (amended): for answers matched through option validation (the
non-binary path), the exit trigger behaves as claimed: a validated
answer equal to `exit_if` can never escape as a recorded answer, such a
turn ends with the configured `exit_message` (default farewell when
absent), and the outer flow then stops without recording it or asking
any later question.  The binary sentiment path, however, returns
`"yes"` without consulting `exit_if` (see the counterexample). -/
theorem C5_amended (llm : List Msg → String) (q : Question) (e : String)
    (hnb : q.valid_options.map pyLower ≠ ["yes", "no"])
    (he : q.exit_if = some e) :
    (∀ (inputs : List String) (a : String),
      (ask_question llm q inputs).result = TurnResult.answered a → a ≠ pyLower e) ∧
    (∀ (raw : String) (rest : List String),
      pyLower (pyStrip raw) ≠ "" →
      (is_followup_question llm (pyLower (pyStrip raw))
        (q.valid_options.map pyLower)).1 = false →
      (validate_option llm (pyLower (pyStrip raw)) (q.valid_options.map pyLower)).1 =
        some (pyLower e) →
      (ask_question llm q (raw :: rest)).result =
        TurnResult.ended (q.exit_message.getD defaultExitMessage)) ∧
    (∀ (qs : List Question) (inputs : List String) (details : List (String × String))
        (f : String),
      q.condition = none →
      (ask_question llm q inputs).result = TurnResult.ended f →
      agi_flow_loop llm (q :: qs) inputs details =
        ⟨FlowOutcome.endedEarly f, details, [q.key]⟩) :=
  ⟨fun inputs a h =>
      loop_answered_ne_trigger llm q (q.valid_options.map pyLower) q.question e hnb he
        inputs false "" a h,
    fun raw rest hr hfu hvo => ask_question_trigger_ends llm q e hnb he raw rest hr hfu hvo,
    fun qs inputs details f hcond hout => flow_ended_stops llm q qs inputs details f hcond hout⟩

/-- C5 witness: the job-type question with trigger `"other"`, matched by
the collaborator, ends the turn with its configured exit message, and
the flow stops with nothing recorded. -/
theorem C5_witness :
    qJob.valid_options.map pyLower ≠ ["yes", "no"] ∧
    qJob.exit_if = some "other" ∧
    (ask_question (fun _ => "other") qJob ["other i guess"]).result =
      TurnResult.ended (qJob.exit_message.getD defaultExitMessage) ∧
    agi_flow_loop (fun _ => "other") [qJob] ["other i guess"] [] =
      ⟨FlowOutcome.endedEarly (qJob.exit_message.getD defaultExitMessage), [], ["job_type"]⟩ :=
  ⟨by decide, rfl,
    (C5_amended (fun _ => "other") qJob "other" (by decide) rfl).2.1 "other i guess" []
      (by decide) (by decide) (by decide),
    (C5_amended (fun _ => "other") qJob "other" (by decide) rfl).2.2 [] ["other i guess"] []
      (qJob.exit_message.getD defaultExitMessage) rfl
      ((C5_amended (fun _ => "other") qJob "other" (by decide) rfl).2.1 "other i guess" []
        (by decide) (by decide) (by decide))⟩

/-! ## Claim C3: LLM failure during clarification generation -/

/-- Every iteration of `ask_question` speaks the current prompt first:
in clarification mode that is the stored smart prompt, otherwise the
primary prompt. -/
theorem loop_spoken_cons (llm : List Msg → String) (q : Question)
    (vo : List String) (pp : String) (cm : Bool) (smart raw : String) (rest : List String) :
    ∃ tl, (ask_question_loop llm q vo pp cm smart (raw :: rest)).spoken =
      (if cm then smart else pp) :: tl := by
  by_cases hr : pyLower (pyStrip raw) = ""
  · exact ⟨[noInputGoodbye], by simp [ask_question_loop, hr]⟩
  · by_cases hb : vo = ["yes", "no"]
    · by_cases hs : (determine_sentiment llm (pyLower (pyStrip raw))).1 = "negative"
      · exact ⟨[q.exit_message.getD defaultExitMessage], by simp [ask_question_loop, hr, hb, hs]⟩
      · exact ⟨[], by simp [ask_question_loop, hr, hb, hs]⟩
    · cases cm with
      | true =>
        cases hvo : (validate_option llm (pyLower (pyStrip raw)) vo).1 with
        | some v =>
          cases he : q.exit_if with
          | some e =>
            by_cases hve : v = pyLower e
            · exact ⟨[q.exit_message.getD defaultExitMessage],
                by simp [ask_question_loop, hr, hb, hvo, he, hve]⟩
            · exact ⟨[], by simp [ask_question_loop, hr, hb, hvo, he, hve]⟩
          | none => exact ⟨[], by simp [ask_question_loop, hr, hb, hvo, he]⟩
        | none =>
          refine ⟨(ask_question_loop llm q vo pp true
            (generate_smart_clarification llm pp (pyLower (pyStrip raw)) vo).1 rest).spoken,
            by simp [ask_question_loop, hr, hb, hvo]⟩
      | false =>
        by_cases hfu : (is_followup_question llm (pyLower (pyStrip raw)) vo).1
        · refine ⟨(ask_question_loop llm q vo pp true
            (generate_smart_clarification llm pp (pyLower (pyStrip raw)) vo).1 rest).spoken,
            by simp [ask_question_loop, hr, hb, hfu]⟩
        · cases hvo : (validate_option llm (pyLower (pyStrip raw)) vo).1 with
          | some v =>
            cases he : q.exit_if with
            | some e =>
              by_cases hve : v = pyLower e
              · exact ⟨[q.exit_message.getD defaultExitMessage],
                  by simp [ask_question_loop, hr, hb, hfu, hvo, he, hve]⟩
              · exact ⟨[], by simp [ask_question_loop, hr, hb, hfu, hvo, he, hve]⟩
            | none => exact ⟨[], by simp [ask_question_loop, hr, hb, hfu, hvo, he]⟩
          | none =>
            refine ⟨(ask_question_loop llm q vo pp true
              (generate_smart_clarification llm pp (pyLower (pyStrip raw)) vo).1 rest).spoken,
              by simp [ask_question_loop, hr, hb, hfu, hvo]⟩

/-- An ambiguous first response (not a follow-up, not validated) makes
`ask_question` speak the primary prompt, then continue in clarification
mode with the generated smart prompt. -/
theorem loop_step_ambiguous (llm : List Msg → String) (q : Question) (vo : List String)
    (pp raw : String) (rest : List String)
    (hr : pyLower (pyStrip raw) ≠ "") (hnb : vo ≠ ["yes", "no"])
    (hfu : (is_followup_question llm (pyLower (pyStrip raw)) vo).1 = false)
    (hvo : (validate_option llm (pyLower (pyStrip raw)) vo).1 = none) :
    (ask_question_loop llm q vo pp false "" (raw :: rest)).spoken =
      pp :: (ask_question_loop llm q vo pp true
        (generate_smart_clarification llm pp (pyLower (pyStrip raw)) vo).1 rest).spoken := by
  simp [ask_question_loop, hr, hnb, hfu, hvo]

/-- C3 counterexample: the claim says an LLM exception during
clarification generation surfaces as a `GenerationFailed` error and the
engine re-plays the original prompt verbatim.  With an always-raising
backend, no error surfaces at all (`query_llm` is total and returns the
apology string), and the next utterance spoken after the ambiguous
response is that apology string — not the primary prompt `"Where?"`. -/
theorem C3_counterexample :
    (ask_question (query_llm (fun _ => Except.error "boom")) qLoc ["hmm", "ok"]).spoken =
      [qLoc.question, apologyMsg] ∧
    apologyMsg ≠ qLoc.question :=
  ⟨by decide, by decide⟩

/-- C3 (amended): when the LLM backend raises during a clarification
turn, `query_llm` swallows the exception and returns the fixed apology
string; the engine stores it as the smart prompt and speaks it — not
the original primary prompt — on the next iteration of the same
question. -/
theorem C3_amended (backend : List Msg → Except String String)
    (hfail : ∀ msgs, ∃ e, backend msgs = Except.error e)
    (q : Question) (i1 i2 : String) (rest : List String)
    (hnb : q.valid_options.map pyLower ≠ ["yes", "no"])
    (h1 : pyLower (pyStrip i1) ≠ "")
    (hmem : (q.valid_options.map pyLower).contains (pyLower apologyMsg) = false) :
    (ask_question (query_llm backend) q (i1 :: i2 :: rest)).spoken[1]? = some apologyMsg := by
  have hfu := followup_apology backend hfail (pyLower (pyStrip i1)) (q.valid_options.map pyLower)
  have hvo := validate_apology backend hfail (q.valid_options.map pyLower) hmem
    (pyLower (pyStrip i1))
  have hsc := smart_apology backend hfail q.question (pyLower (pyStrip i1))
    (q.valid_options.map pyLower)
  obtain ⟨tl, htl⟩ := loop_spoken_cons (query_llm backend) q (q.valid_options.map pyLower)
    q.question true apologyMsg i2 rest
  simp only [if_true] at htl
  unfold ask_question
  rw [loop_step_ambiguous (query_llm backend) q (q.valid_options.map pyLower) q.question i1
    (i2 :: rest) h1 hnb hfu hvo, hsc, htl]
  simp

/-- C3 witness: the location question under a failing backend. -/
theorem C3_witness :
    qLoc.valid_options.map pyLower ≠ ["yes", "no"] ∧
    pyLower (pyStrip "hmm") ≠ "" ∧
    (qLoc.valid_options.map pyLower).contains (pyLower apologyMsg) = false ∧
    (ask_question (query_llm (fun _ => Except.error "outage")) qLoc
      ["hmm", "ok"]).spoken[1]? = some apologyMsg :=
  ⟨by decide, by decide, by decide,
    C3_amended (fun _ => Except.error "outage") (fun _ => ⟨"outage", rfl⟩) qLoc "hmm" "ok" []
      (by decide) (by decide) (by decide)⟩

end VoiceBot
